import Mathlib

/-
Verification of the Bribehack accounting ledger (bribehack-contract/src/Bribehack.sol)
and the subgraph event mapping (the indexer), against the repository specification.

The contract is embedded shallowly: storage mappings become functions out of the
key type, payable calls take msg.sender / msg.value / block.timestamp as explicit
parameters, and a reverting call returns an error value (the whole call commits or
reverts atomically, so a revert is modelled as producing no new state).  Solidity
0.8 uses checked arithmetic: the counters involved here (a commitment count that
the contract keeps at most 3, lengths of calldata arrays, and wei amounts bounded
by the total ether supply) never reach 2^256, so they are modelled as Nat.
-/

namespace Bribehack

/-- Addresses are modelled as natural numbers; the zero address is 0. -/
abbrev Address := Nat

/-- The constant MAX_COMMITMENTS of the contract. -/
def MAX_COMMITMENTS : Nat := 3

/-- The Commitment struct: details about a hacker commitment to one or more bounties. -/
structure Commitment where
  hacker : Address
  bountyIds : List String
  ensPseudonym : String
  ipfsHash : String
  timestamp : Nat
deriving DecidableEq

/-- The Bounty struct: a bounty, including its prize pool and sponsors. -/
structure Bounty where
  bountyId : String
  prizePool : Nat
  sponsors : List Address
deriving DecidableEq

/-- The Bribe struct: a bribe made from one party to a hacker for a specific bounty. -/
structure Bribe where
  briber : Address
  hacker : Address
  bountyId : String
  amount : Nat
  timestamp : Nat
deriving DecidableEq

/-- Zero value of a Commitment storage slot (what an untouched mapping entry holds). -/
def defaultCommitment : Commitment :=
  { hacker := 0, bountyIds := [], ensPseudonym := "", ipfsHash := "", timestamp := 0 }

/-- Zero value of a Bounty storage slot. -/
def defaultBounty : Bounty :=
  { bountyId := "", prizePool := 0, sponsors := [] }

/-- The structured revert errors of the contract. -/
inductive ContractError where
  | ExceedsMaxCommitments (current attempted max : Nat)
  | NoBountiesProvided
  | ZeroSponsorship
  | ZeroBribe
  | InvalidLayerZeroEndpoint
deriving DecidableEq

/-- The five events the contract can emit.  The two byte-string arguments of
LZMessageSent are produced by abi encoding, which no claim inspects, so they are
kept abstract as lists of bytes. -/
inductive ContractEvent where
  | NewCommitment (hacker : Address) (bountyIds : List String) (ipfsHash : String)
  | BountySponsored (bountyId : String) (sponsor : Address) (amount : Nat)
  | HackerBribed (briber : Address) (hacker : Address) (bountyId : String) (amount : Nat)
  | CrossChainSnapshot (hacker : Address) (bountyId : String)
  | LZMessageSent (dstChainId : Nat) (destination : List Nat) (payload : List Nat)
deriving DecidableEq

/-- Contract storage: the four mappings and the endpoint address. -/
structure BribehackState where
  commitments : Address → Commitment
  bounties : String → Bounty
  bribesByHacker : Address → List Bribe
  hackerCommitmentCount : Address → Nat
  lzEndpoint : Address

/-- Point update of a storage mapping. -/
def updateMap {α β : Type} [DecidableEq α] (m : α → β) (k : α) (v : β) : α → β :=
  fun x => if x = k then v else m x

/-- Storage as deployed, before any public call: every mapping entry holds its
zero value. -/
def initialState (lzEndpointAddr : Address) : BribehackState :=
  { commitments := fun _ => defaultCommitment
    bounties := fun _ => defaultBounty
    bribesByHacker := fun _ => []
    hackerCommitmentCount := fun _ => 0
    lzEndpoint := lzEndpointAddr }

/-- The constructor: rejects the zero address, otherwise stores the endpoint. -/
def deploy (lzEndpointAddr : Address) : Except ContractError BribehackState :=
  if lzEndpointAddr = 0 then .error .InvalidLayerZeroEndpoint
  else .ok (initialState lzEndpointAddr)

/-- The function commitToBounties, translated line by line.  msg.sender and
block.timestamp are the sender and blockTimestamp parameters. -/
def commitToBounties (s : BribehackState) (sender : Address) (bountyIds : List String)
    (ensPseudonym ipfsHash : String) (blockTimestamp : Nat) :
    Except ContractError (BribehackState × List ContractEvent) :=
  let newCommitments := bountyIds.length
  if newCommitments = 0 then
    .error .NoBountiesProvided
  else
    let currentCommitments := s.hackerCommitmentCount sender
    if currentCommitments + newCommitments > MAX_COMMITMENTS then
      .error (.ExceedsMaxCommitments currentCommitments newCommitments MAX_COMMITMENTS)
    else
      let c : Commitment :=
        { hacker := sender, bountyIds := bountyIds, ensPseudonym := ensPseudonym,
          ipfsHash := ipfsHash, timestamp := blockTimestamp }
      .ok ({ s with
              commitments := updateMap s.commitments sender c
              hackerCommitmentCount := updateMap s.hackerCommitmentCount sender newCommitments },
           [.NewCommitment sender bountyIds ipfsHash])

/-- The payable function sponsorBounty, translated line by line; msgValue is the
attached msg.value. -/
def sponsorBounty (s : BribehackState) (sender : Address) (bountyId : String)
    (msgValue : Nat) : Except ContractError (BribehackState × List ContractEvent) :=
  if msgValue = 0 then
    .error .ZeroSponsorship
  else
    let bounty := s.bounties bountyId
    let bounty := if bounty.prizePool = 0 then { bounty with bountyId := bountyId } else bounty
    let bounty := { bounty with
                     sponsors := bounty.sponsors ++ [sender]
                     prizePool := bounty.prizePool + msgValue }
    .ok ({ s with bounties := updateMap s.bounties bountyId bounty },
         [.BountySponsored bountyId sender msgValue])

/-- The payable function bribeHacker, translated line by line. -/
def bribeHacker (s : BribehackState) (sender : Address) (hacker : Address)
    (bountyId : String) (msgValue blockTimestamp : Nat) :
    Except ContractError (BribehackState × List ContractEvent) :=
  if msgValue = 0 then
    .error .ZeroBribe
  else
    let newBribe : Bribe :=
      { briber := sender, hacker := hacker, bountyId := bountyId,
        amount := msgValue, timestamp := blockTimestamp }
    .ok ({ s with bribesByHacker :=
              updateMap s.bribesByHacker hacker (s.bribesByHacker hacker ++ [newBribe]) },
         [.HackerBribed sender hacker bountyId msgValue])

/-- The function lzReceive only decodes the payload and emits CrossChainSnapshot;
it writes no storage. -/
def lzReceive (s : BribehackState) (payloadHacker : Address) (payloadBountyId : String) :
    BribehackState × List ContractEvent :=
  (s, [.CrossChainSnapshot payloadHacker payloadBountyId])

/-- The function sendCommitCrossChain emits LZMessageSent and CrossChainSnapshot and
forwards to the external endpoint; it writes no storage of this contract (the abi
encoded byte strings are kept abstract). -/
def sendCommitCrossChain (s : BribehackState) (sender : Address) (dstChainId : Nat)
    (bountyId : String) : BribehackState × List ContractEvent :=
  (s, [.LZMessageSent dstChainId [] [], .CrossChainSnapshot sender bountyId])

/-- View function getCommitment: a pure storage read. -/
def getCommitment (s : BribehackState) (hacker : Address) : Commitment :=
  s.commitments hacker

/-- View function getBounty: a pure storage read. -/
def getBounty (s : BribehackState) (bountyId : String) : Bounty :=
  s.bounties bountyId

/-- View function getBribes: a pure storage read. -/
def getBribes (s : BribehackState) (hacker : Address) : List Bribe :=
  s.bribesByHacker hacker

/-- One public call to the contract, with all transaction inputs explicit. -/
inductive Op where
  | commit (sender : Address) (bountyIds : List String) (ensPseudonym ipfsHash : String)
      (blockTimestamp : Nat)
  | sponsor (sender : Address) (bountyId : String) (msgValue : Nat)
  | bribe (sender hacker : Address) (bountyId : String) (msgValue blockTimestamp : Nat)
  | lzReceiveOp (payloadHacker : Address) (payloadBountyId : String)
  | sendCrossChainOp (sender : Address) (dstChainId : Nat) (bountyId : String)
deriving DecidableEq

/-- Transaction semantics of one call: a revert leaves storage unchanged. -/
def applyOp (s : BribehackState) (op : Op) : BribehackState :=
  match op with
  | .commit sender ids ens ipfs ts =>
      match commitToBounties s sender ids ens ipfs ts with
      | .ok (s', _) => s'
      | .error _ => s
  | .sponsor sender id v =>
      match sponsorBounty s sender id v with
      | .ok (s', _) => s'
      | .error _ => s
  | .bribe sender hacker id v ts =>
      match bribeHacker s sender hacker id v ts with
      | .ok (s', _) => s'
      | .error _ => s
  | .lzReceiveOp ph pb => (lzReceive s ph pb).1
  | .sendCrossChainOp sender dst id => (sendCommitCrossChain s sender dst id).1

/-- Runs a sequence of public calls. -/
def run (s : BribehackState) (ops : List Op) : BribehackState :=
  match ops with
  | [] => s
  | op :: rest => run (applyOp s op) rest

/-- Hacker addresses named as sender of some commit call in a trace (whether or
not the call succeeded). -/
def committedHackers : List Op → List Address
  | [] => []
  | .commit sender _ _ _ _ :: rest => sender :: committedHackers rest
  | _ :: rest => committedHackers rest

/-- Bounty keys named in some sponsor call of a trace. -/
def sponsoredBountyIds : List Op → List String
  | [] => []
  | .sponsor _ id _ :: rest => id :: sponsoredBountyIds rest
  | _ :: rest => sponsoredBountyIds rest

/-- Hacker addresses named as target of some bribe call of a trace. -/
def bribedHackers : List Op → List Address
  | [] => []
  | .bribe _ hacker _ _ _ :: rest => hacker :: bribedHackers rest
  | _ :: rest => bribedHackers rest

end Bribehack

/-
The indexer: the subgraph mapping file of the repository, translated handler by
handler.  Byte strings (addresses, transaction hashes, the Bytes form of an
indexed string parameter) are modelled as their hex strings, so the toHexString
conversion is the identity and the observable step is the lower casing.  BigInt
values that the mapping uses are all unsigned and are modelled as Nat.  The
entity store is one field per entity type, each a map from entity id to an
optional entity (none = not yet created); entity.save() is a point update.
-/

namespace BribehackSubgraph

open Bribehack (updateMap)

/-- Byte strings of the mapping environment, modelled as hex strings. -/
abbrev Bytes := String

/-- The host toLowerCase function of the mapping language, character by
character. -/
def lowerString (s : String) : String := ⟨s.data.map Char.toLower⟩

/-- The GlobalStats entity. -/
structure GlobalStatsEntity where
  totalCommitments : Nat
  totalBribes : Nat
  totalBribeVolume : Nat
  totalSponsors : Nat
  totalSponsorVolume : Nat
  totalHackers : Nat
  lastUpdated : Nat
deriving DecidableEq

/-- The Commitment entity of the subgraph schema, as the mapping populates it. -/
structure CommitmentEntity where
  id : String
  hacker : Bytes
  bountyIds : List String
  ensPseudonym : String
  ipfsHash : String
  timestamp : Nat
  transactionHash : Bytes
  blockNumber : Nat
deriving DecidableEq

/-- The Hacker entity.  Fields not assigned at creation are optional. -/
structure HackerEntity where
  id : String
  address : Bytes
  commitments : List String
  bribesReceived : List String
  totalBribesReceived : Nat
  bountyIds : List String
  ensPseudonym : Option String
  ipfsHash : Option String
  lastActive : Nat
deriving DecidableEq

/-- The Bounty entity of the subgraph (distinct from the ledger struct). -/
structure BountyEntity where
  id : String
  bountyId : String
  prizePool : Nat
  totalSponsors : Nat
  commitments : List String
  lastUpdated : Nat
deriving DecidableEq

/-- The Bribe entity. -/
structure BribeEntity where
  id : String
  briber : Bytes
  hacker : Bytes
  bounty : String
  bountyId : String
  amount : Nat
  timestamp : Nat
  transactionHash : Bytes
  blockNumber : Nat
  status : String
deriving DecidableEq

/-- The Sponsor entity: one record per sponsorship transaction. -/
structure SponsorEntity where
  id : String
  sponsor : Bytes
  bounty : String
  amount : Nat
  timestamp : Nat
  transactionHash : Bytes
deriving DecidableEq

/-- The entity store the handlers read and write. -/
structure Store where
  commitmentEntities : String → Option CommitmentEntity
  bountyEntities : String → Option BountyEntity
  bribeEntities : String → Option BribeEntity
  hackerEntities : String → Option HackerEntity
  sponsorEntities : String → Option SponsorEntity
  statsEntity : Option GlobalStatsEntity

/-- An empty store: no entity of any kind exists yet. -/
def emptyStore : Store :=
  { commitmentEntities := fun _ => none
    bountyEntities := fun _ => none
    bribeEntities := fun _ => none
    hackerEntities := fun _ => none
    sponsorEntities := fun _ => none
    statsEntity := none }

/-- Entity id derivation used for Commitment, Sponsor and Bribe entities:
the transaction hash and the log index, joined by a dash. -/
def mkEntityId (txHash : Bytes) (logIndex : Nat) : String :=
  txHash ++ "-" ++ toString logIndex

/-- Function getOrCreateGlobalStats of the mapping (the caller saves the result). -/
def getOrCreateGlobalStats (st : Store) : GlobalStatsEntity :=
  match st.statsEntity with
  | some stats => stats
  | none =>
      { totalCommitments := 0, totalBribes := 0, totalBribeVolume := 0,
        totalSponsors := 0, totalSponsorVolume := 0, totalHackers := 0, lastUpdated := 0 }

/-- Function getOrCreateHacker: the hacker id is the lower cased hex address.
Creating a fresh hacker increments and saves the global stats (the hacker itself
is saved later by the caller), so the store is returned alongside. -/
def getOrCreateHacker (address : Bytes) (st : Store) : HackerEntity × Store :=
  let hackerId := lowerString address
  match st.hackerEntities hackerId with
  | some hacker => (hacker, st)
  | none =>
      let hacker : HackerEntity :=
        { id := hackerId, address := address, commitments := [], bribesReceived := [],
          totalBribesReceived := 0, bountyIds := [], ensPseudonym := none,
          ipfsHash := none, lastActive := 0 }
      let stats := getOrCreateGlobalStats st
      let stats := { stats with totalHackers := stats.totalHackers + 1 }
      (hacker, { st with statsEntity := some stats })

/-- Function getOrCreateBounty: the entity key is the lower cased bounty id, the
stored bountyId field keeps the original format. -/
def getOrCreateBounty (st : Store) (bountyId : String) : BountyEntity :=
  let normalizedId := lowerString bountyId
  match st.bountyEntities normalizedId with
  | some bounty => bounty
  | none =>
      { id := normalizedId, bountyId := bountyId, prizePool := 0,
        totalSponsors := 0, commitments := [], lastUpdated := 0 }

/-- Function normalizeENS: lower cases ENS names; the empty string is falsy in
the mapping language, giving the explicit empty case. -/
def normalizeENS (ens : String) : String :=
  if ens = "" then "" else lowerString ens

/-- Function getValidTimestamp: block timestamp as fallback when the event
timestamp is zero. -/
def getValidTimestamp (timestamp blockTimestamp : Nat) : Nat :=
  if timestamp = 0 then blockTimestamp else timestamp

/-- An event as delivered to a handler: decoded params plus transaction and
block context. -/
structure IndexedEvent (P : Type) where
  params : P
  txHash : Bytes
  logIndex : Nat
  blockNumber : Nat
  blockTimestamp : Nat

/-- The params the NewCommitment handler reads from its event.  The mapping also
reads ensPseudonym and timestamp, which the ledger event NewCommitment does not
carry. -/
structure NewCommitmentEventParams where
  hacker : Bytes
  bountyIds : List String
  ensPseudonym : String
  ipfsHash : String
  timestamp : Nat

/-- The params the BountySponsored handler reads.  The bountyId arrives as Bytes
because the ledger indexes that string parameter; the mapping also reads
newTotal, which the ledger event BountySponsored does not carry. -/
structure BountySponsoredEventParams where
  bountyId : Bytes
  sponsor : Bytes
  amount : Nat
  newTotal : Nat

/-- The params the HackerBribed handler reads.  The mapping also reads
timestamp, which the ledger event HackerBribed does not carry. -/
structure HackerBribedEventParams where
  briber : Bytes
  hacker : Bytes
  bountyId : Bytes
  amount : Nat
  timestamp : Nat

/-- Body of the bounty loop of handleNewCommitment: record the commitment id on
the (lazily created, lower case keyed) bounty entity and save it. -/
def addCommitmentToBounty (commitmentId : String) (blockTimestamp : Nat)
    (st : Store) (bid : String) : Store :=
  let bounty := getOrCreateBounty st bid
  let bounty := { bounty with
                   commitments := bounty.commitments ++ [commitmentId]
                   lastUpdated := blockTimestamp }
  { st with bountyEntities := updateMap st.bountyEntities bounty.id (some bounty) }

/-- Handler handleNewCommitment, translated statement by statement. -/
def handleNewCommitment (event : IndexedEvent NewCommitmentEventParams) (st : Store) : Store :=
  let commitmentId := mkEntityId event.txHash event.logIndex
  let commitment : CommitmentEntity :=
    { id := commitmentId
      hacker := event.params.hacker
      bountyIds := event.params.bountyIds
      ensPseudonym := normalizeENS event.params.ensPseudonym
      ipfsHash := event.params.ipfsHash
      timestamp := getValidTimestamp event.params.timestamp event.blockTimestamp
      transactionHash := event.txHash
      blockNumber := event.blockNumber }
  let st := { st with commitmentEntities := updateMap st.commitmentEntities commitmentId (some commitment) }
  let hs := getOrCreateHacker event.params.hacker st
  let hacker := hs.1
  let st := hs.2
  let hacker := { hacker with
                   commitments := hacker.commitments ++ [commitmentId]
                   bountyIds := event.params.bountyIds
                   ensPseudonym := some (normalizeENS event.params.ensPseudonym)
                   ipfsHash := some event.params.ipfsHash
                   lastActive := event.blockTimestamp }
  let st := { st with hackerEntities := updateMap st.hackerEntities hacker.id (some hacker) }
  let st := event.params.bountyIds.foldl (addCommitmentToBounty commitmentId event.blockTimestamp) st
  let stats := getOrCreateGlobalStats st
  let stats := { stats with
                  totalCommitments := stats.totalCommitments + 1
                  lastUpdated := event.blockTimestamp }
  { st with statsEntity := some stats }

/-- Handler handleBountySponsored, translated statement by statement. -/
def handleBountySponsored (event : IndexedEvent BountySponsoredEventParams) (st : Store) : Store :=
  let sponsorId := mkEntityId event.txHash event.logIndex
  let bountyIdString := event.params.bountyId
  let bounty := getOrCreateBounty st bountyIdString
  let sp : SponsorEntity :=
    { id := sponsorId
      sponsor := event.params.sponsor
      bounty := bounty.id
      amount := event.params.amount
      timestamp := event.blockTimestamp
      transactionHash := event.txHash }
  let st := { st with sponsorEntities := updateMap st.sponsorEntities sponsorId (some sp) }
  let bounty := { bounty with
                   prizePool := event.params.newTotal
                   totalSponsors := bounty.totalSponsors + 1
                   lastUpdated := event.blockTimestamp }
  let st := { st with bountyEntities := updateMap st.bountyEntities bounty.id (some bounty) }
  let stats := getOrCreateGlobalStats st
  let stats := { stats with
                  totalSponsors := stats.totalSponsors + 1
                  totalSponsorVolume := stats.totalSponsorVolume + event.params.amount
                  lastUpdated := event.blockTimestamp }
  { st with statsEntity := some stats }

/-- Handler handleHackerBribed, translated statement by statement. -/
def handleHackerBribed (event : IndexedEvent HackerBribedEventParams) (st : Store) : Store :=
  let bribeId := mkEntityId event.txHash event.logIndex
  let bountyIdString := event.params.bountyId
  let bounty := getOrCreateBounty st bountyIdString
  let bribe : BribeEntity :=
    { id := bribeId
      briber := event.params.briber
      hacker := event.params.hacker
      bounty := bounty.id
      bountyId := bountyIdString
      amount := event.params.amount
      timestamp := getValidTimestamp event.params.timestamp event.blockTimestamp
      transactionHash := event.txHash
      blockNumber := event.blockNumber
      status := "pending" }
  let st := { st with bribeEntities := updateMap st.bribeEntities bribeId (some bribe) }
  let hs := getOrCreateHacker event.params.hacker st
  let hacker := hs.1
  let st := hs.2
  let hacker := { hacker with
                   bribesReceived := hacker.bribesReceived ++ [bribeId]
                   totalBribesReceived := hacker.totalBribesReceived + event.params.amount
                   lastActive := event.blockTimestamp }
  let st := { st with hackerEntities := updateMap st.hackerEntities hacker.id (some hacker) }
  let bounty := { bounty with lastUpdated := event.blockTimestamp }
  let st := { st with bountyEntities := updateMap st.bountyEntities bounty.id (some bounty) }
  let stats := getOrCreateGlobalStats st
  let stats := { stats with
                  totalBribes := stats.totalBribes + 1
                  totalBribeVolume := stats.totalBribeVolume + event.params.amount
                  lastUpdated := event.blockTimestamp }
  { st with statsEntity := some stats }

/-- The five kinds of event the ledger declares. -/
inductive EventKind where
  | newCommitment
  | bountySponsored
  | hackerBribed
  | crossChainSnapshot
  | lzMessageSent
deriving DecidableEq

/-- The event kinds declared in the events block of Bribehack.sol. -/
def ledgerEventKinds : List EventKind :=
  [.newCommitment, .bountySponsored, .hackerBribed, .crossChainSnapshot, .lzMessageSent]

/-- The parameter names each ledger event actually carries, from its declaration
in Bribehack.sol. -/
def ledgerEventParams : EventKind → List String
  | .newCommitment => ["hacker", "bountyIds", "ipfsHash"]
  | .bountySponsored => ["bountyId", "sponsor", "amount"]
  | .hackerBribed => ["briber", "hacker", "bountyId", "amount"]
  | .crossChainSnapshot => ["hacker", "bountyId"]
  | .lzMessageSent => ["dstChainId", "destination", "payload"]

/-- The event kinds for which the mapping file imports a type and exports a
handler. -/
def indexerHandledKinds : List EventKind :=
  [.newCommitment, .bountySponsored, .hackerBribed]

/-- The parameter names each handler reads off event.params in the mapping file. -/
def indexerParamsRead : EventKind → List String
  | .newCommitment => ["hacker", "bountyIds", "ensPseudonym", "ipfsHash", "timestamp"]
  | .bountySponsored => ["bountyId", "sponsor", "amount", "newTotal"]
  | .hackerBribed => ["briber", "hacker", "bountyId", "amount", "timestamp"]
  | _ => []

end BribehackSubgraph

namespace Bribehack

theorem updateMap_same {α β : Type} [DecidableEq α] (m : α → β) (k : α) (v : β) :
    updateMap m k v k = v := by
  simp [updateMap]

theorem updateMap_ne {α β : Type} [DecidableEq α] (m : α → β) (k x : α) (v : β)
    (h : x ≠ k) : updateMap m k v x = m x := by
  simp [updateMap, h]

/-- Inversion principle for a successful commitToBounties call: success happens
exactly when the id list is nonempty and the stored count plus its length stays
within MAX_COMMITMENTS, and then the post state and the emitted event are fully
determined. -/
theorem commitToBounties_ok_iff (s : BribehackState) (sender : Address)
    (ids : List String) (ens ipfs : String) (ts : Nat)
    (s' : BribehackState) (evs : List ContractEvent) :
    commitToBounties s sender ids ens ipfs ts = .ok (s', evs) ↔
      ids.length ≠ 0 ∧ s.hackerCommitmentCount sender + ids.length ≤ MAX_COMMITMENTS ∧
      s' = { s with
              commitments := updateMap s.commitments sender
                ({ hacker := sender, bountyIds := ids, ensPseudonym := ens,
                   ipfsHash := ipfs, timestamp := ts }),
              hackerCommitmentCount := updateMap s.hackerCommitmentCount sender ids.length } ∧
      evs = [.NewCommitment sender ids ipfs] := by
  simp only [commitToBounties]
  split
  · rename_i h0
    simp [h0]
  · rename_i h0
    split
    · rename_i hgt
      constructor
      · intro h
        exact absurd h (by simp)
      · rintro ⟨h1, h2, h3, h4⟩
        exact absurd hgt (by omega)
    · rename_i hle
      simp only [Except.ok.injEq, Prod.mk.injEq]
      constructor
      · rintro ⟨hs, hevs⟩
        exact ⟨h0, by omega, hs.symm, hevs.symm⟩
      · rintro ⟨h1, h2, rfl, rfl⟩
        exact ⟨rfl, rfl⟩

/-- Inversion principle for a successful sponsorBounty call. -/
theorem sponsorBounty_ok_iff (s : BribehackState) (sender : Address) (bountyId : String)
    (v : Nat) (s' : BribehackState) (evs : List ContractEvent) :
    sponsorBounty s sender bountyId v = .ok (s', evs) ↔
      v ≠ 0 ∧
      s' = { s with
              bounties := updateMap s.bounties bountyId
                ({ bountyId := if (s.bounties bountyId).prizePool = 0 then bountyId
                               else (s.bounties bountyId).bountyId,
                   prizePool := (s.bounties bountyId).prizePool + v,
                   sponsors := (s.bounties bountyId).sponsors ++ [sender] }) } ∧
      evs = [.BountySponsored bountyId sender v] := by
  simp only [sponsorBounty]
  split
  · rename_i hv
    simp [hv]
  · rename_i hv
    by_cases hp : (s.bounties bountyId).prizePool = 0 <;>
      simp only [hp, if_true, if_false, Except.ok.injEq, Prod.mk.injEq] <;>
      constructor
    · rintro ⟨hs, hevs⟩
      exact ⟨hv, hs.symm, hevs.symm⟩
    · rintro ⟨h1, rfl, rfl⟩
      exact ⟨rfl, rfl⟩
    · rintro ⟨hs, hevs⟩
      exact ⟨hv, hs.symm, hevs.symm⟩
    · rintro ⟨h1, rfl, rfl⟩
      exact ⟨rfl, rfl⟩

/-- Inversion principle for a successful bribeHacker call. -/
theorem bribeHacker_ok_iff (s : BribehackState) (sender hacker : Address)
    (bountyId : String) (v ts : Nat) (s' : BribehackState) (evs : List ContractEvent) :
    bribeHacker s sender hacker bountyId v ts = .ok (s', evs) ↔
      v ≠ 0 ∧
      s' = { s with
              bribesByHacker := updateMap s.bribesByHacker hacker
                ((s.bribesByHacker hacker) ++
                  [{ briber := sender, hacker := hacker, bountyId := bountyId,
                     amount := v, timestamp := ts }]) } ∧
      evs = [.HackerBribed sender hacker bountyId v] := by
  simp only [bribeHacker]
  split
  · rename_i hv
    simp [hv]
  · rename_i hv
    simp only [Except.ok.injEq, Prod.mk.injEq]
    constructor
    · rintro ⟨hs, hevs⟩
      exact ⟨hv, hs.symm, hevs.symm⟩
    · rintro ⟨h1, rfl, rfl⟩
      exact ⟨rfl, rfl⟩

/-- The storage invariant behind claim C5: the stored count of a hacker equals
the length of the bounty id list of the stored commitment and never exceeds
MAX_COMMITMENTS. -/
def countInv (s : BribehackState) : Prop :=
  ∀ h, s.hackerCommitmentCount h = ((s.commitments h).bountyIds).length ∧
       s.hackerCommitmentCount h ≤ MAX_COMMITMENTS

/-- The storage invariant behind claim C6: a bounty with a nonzero pool carries
its own key in the bountyId field; a bounty with a zero pool is still the zero
struct. -/
def bountyInv (s : BribehackState) : Prop :=
  ∀ k, (0 < (s.bounties k).prizePool → (s.bounties k).bountyId = k) ∧
       ((s.bounties k).prizePool = 0 → s.bounties k = defaultBounty)

theorem countInv_initial (lz : Address) : countInv (initialState lz) := by
  intro h
  simp [initialState, defaultCommitment, MAX_COMMITMENTS]

theorem bountyInv_initial (lz : Address) : bountyInv (initialState lz) := by
  intro k
  simp [initialState, defaultBounty]

theorem countInv_applyOp (s : BribehackState) (op : Op) (hInv : countInv s) :
    countInv (applyOp s op) := by
  cases op with
  | commit sender ids ens ipfs ts =>
      dsimp only [applyOp]
      cases hc : commitToBounties s sender ids ens ipfs ts with
      | error e => exact hInv
      | ok p =>
          obtain ⟨s', evs⟩ := p
          rw [commitToBounties_ok_iff] at hc
          obtain ⟨h1, h2, rfl, -⟩ := hc
          intro h
          by_cases hh : h = sender
          · subst hh
            simp only [updateMap_same]
            exact ⟨by simp, by omega⟩
          · simp only [updateMap_ne _ _ _ _ hh]
            exact hInv h
  | sponsor sender id v =>
      dsimp only [applyOp]
      cases hc : sponsorBounty s sender id v with
      | error e => exact hInv
      | ok p =>
          obtain ⟨s', evs⟩ := p
          rw [sponsorBounty_ok_iff] at hc
          obtain ⟨-, rfl, -⟩ := hc
          exact hInv
  | bribe sender hacker id v ts =>
      dsimp only [applyOp]
      cases hc : bribeHacker s sender hacker id v ts with
      | error e => exact hInv
      | ok p =>
          obtain ⟨s', evs⟩ := p
          rw [bribeHacker_ok_iff] at hc
          obtain ⟨-, rfl, -⟩ := hc
          exact hInv
  | lzReceiveOp ph pb => exact hInv
  | sendCrossChainOp sender dst id => exact hInv

theorem countInv_run (s : BribehackState) (ops : List Op) (hInv : countInv s) :
    countInv (run s ops) := by
  induction ops generalizing s with
  | nil => exact hInv
  | cons op rest ih => exact ih _ (countInv_applyOp s op hInv)

theorem bountyInv_applyOp (s : BribehackState) (op : Op) (hInv : bountyInv s) :
    bountyInv (applyOp s op) := by
  cases op with
  | commit sender ids ens ipfs ts =>
      dsimp only [applyOp]
      cases hc : commitToBounties s sender ids ens ipfs ts with
      | error e => exact hInv
      | ok p =>
          obtain ⟨s', evs⟩ := p
          rw [commitToBounties_ok_iff] at hc
          obtain ⟨-, -, rfl, -⟩ := hc
          exact hInv
  | sponsor sender id v =>
      dsimp only [applyOp]
      cases hc : sponsorBounty s sender id v with
      | error e => exact hInv
      | ok p =>
          obtain ⟨s', evs⟩ := p
          rw [sponsorBounty_ok_iff] at hc
          obtain ⟨hv, rfl, -⟩ := hc
          intro k
          by_cases hk : k = id
          · subst hk
            simp only [updateMap_same]
            constructor
            · intro hpos
              by_cases hp : (s.bounties k).prizePool = 0
              · simp [hp]
              · simp only [if_neg hp]
                exact (hInv k).1 (Nat.pos_of_ne_zero hp)
            · intro hzero
              exact absurd hzero (by omega)
          · simp only [updateMap_ne _ _ _ _ hk]
            exact hInv k
  | bribe sender hacker id v ts =>
      dsimp only [applyOp]
      cases hc : bribeHacker s sender hacker id v ts with
      | error e => exact hInv
      | ok p =>
          obtain ⟨s', evs⟩ := p
          rw [bribeHacker_ok_iff] at hc
          obtain ⟨-, rfl, -⟩ := hc
          exact hInv
  | lzReceiveOp ph pb => exact hInv
  | sendCrossChainOp sender dst id => exact hInv

theorem bountyInv_run (s : BribehackState) (ops : List Op) (hInv : bountyInv s) :
    bountyInv (run s ops) := by
  induction ops generalizing s with
  | nil => exact hInv
  | cons op rest ih => exact ih _ (bountyInv_applyOp s op hInv)

/-- A single call never changes a bounty entry whose key it does not name in a
sponsor call. -/
theorem applyOp_bounties_frame (s : BribehackState) (op : Op) (k : String)
    (hk : k ∉ sponsoredBountyIds [op]) : (applyOp s op).bounties k = s.bounties k := by
  cases op with
  | commit sender ids ens ipfs ts =>
      dsimp only [applyOp]
      cases hc : commitToBounties s sender ids ens ipfs ts with
      | error e => rfl
      | ok p =>
          obtain ⟨s', evs⟩ := p
          rw [commitToBounties_ok_iff] at hc
          obtain ⟨-, -, rfl, -⟩ := hc
          rfl
  | sponsor sender id v =>
      have hne : k ≠ id := by simpa [sponsoredBountyIds] using hk
      dsimp only [applyOp]
      cases hc : sponsorBounty s sender id v with
      | error e => rfl
      | ok p =>
          obtain ⟨s', evs⟩ := p
          rw [sponsorBounty_ok_iff] at hc
          obtain ⟨-, rfl, -⟩ := hc
          exact updateMap_ne _ _ _ _ hne
  | bribe sender hacker id v ts =>
      dsimp only [applyOp]
      cases hc : bribeHacker s sender hacker id v ts with
      | error e => rfl
      | ok p =>
          obtain ⟨s', evs⟩ := p
          rw [bribeHacker_ok_iff] at hc
          obtain ⟨-, rfl, -⟩ := hc
          rfl
  | lzReceiveOp ph pb => rfl
  | sendCrossChainOp sender dst id => rfl

/-- A single call never changes the commitment or count of a hacker it does not
name as sender of a commit call. -/
theorem applyOp_commitments_frame (s : BribehackState) (op : Op) (h : Address)
    (hh : h ∉ committedHackers [op]) :
    (applyOp s op).commitments h = s.commitments h ∧
    (applyOp s op).hackerCommitmentCount h = s.hackerCommitmentCount h := by
  cases op with
  | commit sender ids ens ipfs ts =>
      have hne : h ≠ sender := by simpa [committedHackers] using hh
      dsimp only [applyOp]
      cases hc : commitToBounties s sender ids ens ipfs ts with
      | error e => exact ⟨rfl, rfl⟩
      | ok p =>
          obtain ⟨s', evs⟩ := p
          rw [commitToBounties_ok_iff] at hc
          obtain ⟨-, -, rfl, -⟩ := hc
          exact ⟨updateMap_ne _ _ _ _ hne, updateMap_ne _ _ _ _ hne⟩
  | sponsor sender id v =>
      dsimp only [applyOp]
      cases hc : sponsorBounty s sender id v with
      | error e => exact ⟨rfl, rfl⟩
      | ok p =>
          obtain ⟨s', evs⟩ := p
          rw [sponsorBounty_ok_iff] at hc
          obtain ⟨-, rfl, -⟩ := hc
          exact ⟨rfl, rfl⟩
  | bribe sender hacker id v ts =>
      dsimp only [applyOp]
      cases hc : bribeHacker s sender hacker id v ts with
      | error e => exact ⟨rfl, rfl⟩
      | ok p =>
          obtain ⟨s', evs⟩ := p
          rw [bribeHacker_ok_iff] at hc
          obtain ⟨-, rfl, -⟩ := hc
          exact ⟨rfl, rfl⟩
  | lzReceiveOp ph pb => exact ⟨rfl, rfl⟩
  | sendCrossChainOp sender dst id => exact ⟨rfl, rfl⟩

/-- A single call never changes the bribe list of a hacker it does not name as
target of a bribe call. -/
theorem applyOp_bribes_frame (s : BribehackState) (op : Op) (h : Address)
    (hh : h ∉ bribedHackers [op]) :
    (applyOp s op).bribesByHacker h = s.bribesByHacker h := by
  cases op with
  | commit sender ids ens ipfs ts =>
      dsimp only [applyOp]
      cases hc : commitToBounties s sender ids ens ipfs ts with
      | error e => rfl
      | ok p =>
          obtain ⟨s', evs⟩ := p
          rw [commitToBounties_ok_iff] at hc
          obtain ⟨-, -, rfl, -⟩ := hc
          rfl
  | sponsor sender id v =>
      dsimp only [applyOp]
      cases hc : sponsorBounty s sender id v with
      | error e => rfl
      | ok p =>
          obtain ⟨s', evs⟩ := p
          rw [sponsorBounty_ok_iff] at hc
          obtain ⟨-, rfl, -⟩ := hc
          rfl
  | bribe sender hacker id v ts =>
      have hne : h ≠ hacker := by simpa [bribedHackers] using hh
      dsimp only [applyOp]
      cases hc : bribeHacker s sender hacker id v ts with
      | error e => rfl
      | ok p =>
          obtain ⟨s', evs⟩ := p
          rw [bribeHacker_ok_iff] at hc
          obtain ⟨-, rfl, -⟩ := hc
          exact updateMap_ne _ _ _ _ hne
  | lzReceiveOp ph pb => rfl
  | sendCrossChainOp sender dst id => rfl

theorem run_bounties_frame (s : BribehackState) (ops : List Op) (k : String)
    (hk : k ∉ sponsoredBountyIds ops) : (run s ops).bounties k = s.bounties k := by
  induction ops generalizing s with
  | nil => rfl
  | cons op rest ih =>
      have hsplit : k ∉ sponsoredBountyIds [op] ∧ k ∉ sponsoredBountyIds rest := by
        cases op <;> simp_all [sponsoredBountyIds]
      simp only [run]
      rw [ih _ hsplit.2, applyOp_bounties_frame s op k hsplit.1]

theorem run_commitments_frame (s : BribehackState) (ops : List Op) (h : Address)
    (hh : h ∉ committedHackers ops) :
    (run s ops).commitments h = s.commitments h ∧
    (run s ops).hackerCommitmentCount h = s.hackerCommitmentCount h := by
  induction ops generalizing s with
  | nil => exact ⟨rfl, rfl⟩
  | cons op rest ih =>
      have hsplit : h ∉ committedHackers [op] ∧ h ∉ committedHackers rest := by
        cases op <;> simp_all [committedHackers]
      simp only [run]
      have hstep := applyOp_commitments_frame s op h hsplit.1
      have htail := ih (applyOp s op) hsplit.2
      exact ⟨htail.1.trans hstep.1, htail.2.trans hstep.2⟩

theorem run_bribes_frame (s : BribehackState) (ops : List Op) (h : Address)
    (hh : h ∉ bribedHackers ops) :
    (run s ops).bribesByHacker h = s.bribesByHacker h := by
  induction ops generalizing s with
  | nil => rfl
  | cons op rest ih =>
      have hsplit : h ∉ bribedHackers [op] ∧ h ∉ bribedHackers rest := by
        cases op <;> simp_all [bribedHackers]
      simp only [run]
      rw [ih _ hsplit.2, applyOp_bribes_frame s op h hsplit.1]

theorem commitToBounties_error_of_nil (s : BribehackState) (sender : Address)
    (ens ipfs : String) (ts : Nat) :
    commitToBounties s sender [] ens ipfs ts = .error .NoBountiesProvided := by
  simp [commitToBounties]

theorem commitToBounties_error_of_overflow (s : BribehackState) (sender : Address)
    (ids : List String) (ens ipfs : String) (ts : Nat) (hlen : ids.length ≠ 0)
    (hgt : s.hackerCommitmentCount sender + ids.length > MAX_COMMITMENTS) :
    commitToBounties s sender ids ens ipfs ts =
      .error (.ExceedsMaxCommitments (s.hackerCommitmentCount sender) ids.length
        MAX_COMMITMENTS) := by
  simp [commitToBounties, hlen, hgt]

/-- A hacker whose stored count is 3 keeps that count and that commitment
across any further trace of public calls. -/
theorem count_three_preserved (s : BribehackState) (h : Address) (ops : List Op)
    (h3 : s.hackerCommitmentCount h = 3) :
    (run s ops).hackerCommitmentCount h = 3 ∧
    (run s ops).commitments h = s.commitments h := by
  induction ops generalizing s with
  | nil => exact ⟨h3, rfl⟩
  | cons op rest ih =>
      have hstep : (applyOp s op).hackerCommitmentCount h = 3 ∧
                   (applyOp s op).commitments h = s.commitments h := by
        cases op with
        | commit sender ids ens ipfs ts =>
            by_cases hs : sender = h
            · subst hs
              dsimp only [applyOp]
              rcases Nat.eq_zero_or_pos ids.length with hlen | hlen
              · have hnil : ids = [] := List.length_eq_zero.mp hlen
                subst hnil
                rw [commitToBounties_error_of_nil]
                exact ⟨h3, rfl⟩
              · rw [commitToBounties_error_of_overflow s sender ids ens ipfs ts (by omega)
                  (by simp only [MAX_COMMITMENTS]; omega)]
                exact ⟨h3, rfl⟩
            · have hfr := applyOp_commitments_frame s (.commit sender ids ens ipfs ts) h
                (by simp only [committedHackers, List.mem_singleton]
                    exact fun he => hs he.symm)
              exact ⟨hfr.2.trans h3, hfr.1⟩
        | sponsor sender id v =>
            have hfr := applyOp_commitments_frame s (.sponsor sender id v)
              h (by simp [committedHackers])
            exact ⟨hfr.2.trans h3, hfr.1⟩
        | bribe sender hacker id v ts =>
            have hfr := applyOp_commitments_frame s (.bribe sender hacker id v ts)
              h (by simp [committedHackers])
            exact ⟨hfr.2.trans h3, hfr.1⟩
        | lzReceiveOp ph pb => exact ⟨h3, rfl⟩
        | sendCrossChainOp sender dst id => exact ⟨h3, rfl⟩
      have htail := ih (applyOp s op) hstep.1
      exact ⟨htail.1, htail.2.trans hstep.2⟩

/-- Claim C1: commitToBounties reverts exactly on the two failure conditions
and with the matching structured error.  An empty bountyIds sequence fails with
NoBountiesProvided for every caller; a nonempty sequence of N ids submitted
while the stored count is C fails with ExceedsMaxCommitments C N 3 whenever
C + N > 3, even when N ≤ 3 on its own (the check is additive against the stored
count); in all other cases the call succeeds.  In this embedding a revert
returns only the error, so it produces no new state. -/
theorem commitToBounties_revert_characterization
    (s : BribehackState) (sender : Address) (ids : List String)
    (ens ipfs : String) (ts : Nat) :
    (ids = [] →
      commitToBounties s sender ids ens ipfs ts = .error .NoBountiesProvided) ∧
    (ids ≠ [] → s.hackerCommitmentCount sender + ids.length > 3 →
      commitToBounties s sender ids ens ipfs ts =
        .error (.ExceedsMaxCommitments (s.hackerCommitmentCount sender) ids.length 3)) ∧
    (ids ≠ [] → s.hackerCommitmentCount sender + ids.length ≤ 3 →
      ∃ s' evs, commitToBounties s sender ids ens ipfs ts = .ok (s', evs)) := by
  refine ⟨?_, ?_, ?_⟩
  · intro h
    subst h
    simp [commitToBounties]
  · intro h0 hgt
    have hlen : ids.length ≠ 0 := by simpa using h0
    simp [commitToBounties, MAX_COMMITMENTS, hlen, hgt]
  · intro h0 hle
    have hlen : ids.length ≠ 0 := by simpa using h0
    refine ⟨_, _, (commitToBounties_ok_iff s sender ids ens ipfs ts _ _).2
      ⟨hlen, by simpa [MAX_COMMITMENTS] using hle, rfl, rfl⟩⟩

/-- Witness for C1 at concrete inputs: an empty call fails, one extra id on a
stored count of 3 fails with ExceedsMaxCommitments 3 1 3, and two ids on a
fresh caller succeed. -/
theorem commitToBounties_revert_characterization_witness :
    commitToBounties (initialState 1) 5 [] ("") ("") 0 = .error .NoBountiesProvided ∧
    commitToBounties (run (initialState 1) [.commit 5 [("a"), ("b"), ("c")] ("") ("") 0]) 5
        [("d")] ("") ("") 0 = .error (.ExceedsMaxCommitments 3 1 3) ∧
    (∃ s' evs, commitToBounties (initialState 1) 5 [("a"), ("b")] ("") ("") 0 = .ok (s', evs)) := by
  refine ⟨?_, ?_, ?_⟩
  · exact (commitToBounties_revert_characterization (initialState 1) 5 [] ("") ("") 0).1 rfl
  · exact (commitToBounties_revert_characterization
      (run (initialState 1) [.commit 5 [("a"), ("b"), ("c")] ("") ("") 0]) 5
      [("d")] ("") ("") 0).2.1 (by decide) (by decide)
  · exact (commitToBounties_revert_characterization (initialState 1) 5
      [("a"), ("b")] ("") ("") 0).2.2 (by decide) (by decide)

/-- Claim C2: after a successful commitToBounties of N ids the stored
commitment of the caller holds exactly the submitted ids in order (the prior
ids are discarded, never merged: the whole struct is overwritten), the stored
count is assigned exactly N (absolutely, not incremented), N lies in [1, 3],
and NewCommitment is emitted. -/
theorem commitToBounties_success_effects
    (s : BribehackState) (sender : Address) (ids : List String)
    (ens ipfs : String) (ts : Nat) (s' : BribehackState) (evs : List ContractEvent)
    (hok : commitToBounties s sender ids ens ipfs ts = .ok (s', evs)) :
    (getCommitment s' sender).bountyIds = ids ∧
    s'.hackerCommitmentCount sender = ids.length ∧
    getCommitment s' sender =
      { hacker := sender, bountyIds := ids, ensPseudonym := ens,
        ipfsHash := ipfs, timestamp := ts } ∧
    1 ≤ ids.length ∧ ids.length ≤ 3 ∧
    evs = [.NewCommitment sender ids ipfs] := by
  rw [commitToBounties_ok_iff] at hok
  obtain ⟨h1, h2, rfl, rfl⟩ := hok
  simp only [MAX_COMMITMENTS] at h2
  refine ⟨?_, ?_, ?_, by omega, by omega, rfl⟩
  · simp [getCommitment, updateMap_same]
  · simp [updateMap_same]
  · simp [getCommitment, updateMap_same]

/-- Witness for C2: a hacker with a stored one id commitment recommits to two
other ids; the stored struct afterwards is exactly the new submission and the
count is 2. -/
theorem commitToBounties_success_effects_witness :
    (getCommitment (applyOp (run (initialState 1) [.commit 5 [("x")] ("") ("") 0])
        (.commit 5 [("a"), ("b")] ("e") ("i") 7)) 5).bountyIds = [("a"), ("b")] ∧
    (applyOp (run (initialState 1) [.commit 5 [("x")] ("") ("") 0])
        (.commit 5 [("a"), ("b")] ("e") ("i") 7)).hackerCommitmentCount 5 = 2 := by
  have h := commitToBounties_success_effects
    (run (initialState 1) [.commit 5 [("x")] ("") ("") 0]) 5 [("a"), ("b")] ("e") ("i") 7 _ _ rfl
  exact ⟨h.1, h.2.1⟩

/-- Claim C3: sponsorBounty with zero value always fails with ZeroSponsorship;
with positive value it adds exactly that value to the prize pool of the named
bounty and appends the sender to the sponsor list whether or not the sender
already appears; sponsoring a fresh bounty twice from one sponsor with values
V1 then V2 leaves pool V1 + V2 and a sponsor list of exactly two entries, both
that sponsor. -/
theorem sponsorBounty_effects (s : BribehackState) (sender : Address) (id : String) :
    (sponsorBounty s sender id 0 = .error .ZeroSponsorship) ∧
    (∀ v, v ≠ 0 → ∃ s' evs, sponsorBounty s sender id v = .ok (s', evs) ∧
       (getBounty s' id).prizePool = (getBounty s id).prizePool + v ∧
       (getBounty s' id).sponsors = (getBounty s id).sponsors ++ [sender]) ∧
    (∀ v1 v2 s1 evs1 s2 evs2, v1 ≠ 0 → v2 ≠ 0 → s.bounties id = defaultBounty →
       sponsorBounty s sender id v1 = .ok (s1, evs1) →
       sponsorBounty s1 sender id v2 = .ok (s2, evs2) →
       (getBounty s2 id).prizePool = v1 + v2 ∧
       (getBounty s2 id).sponsors = [sender, sender]) := by
  refine ⟨by simp [sponsorBounty], ?_, ?_⟩
  · intro v hv
    refine ⟨_, _, (sponsorBounty_ok_iff s sender id v _ _).2 ⟨hv, rfl, rfl⟩, ?_, ?_⟩
    · simp [getBounty, updateMap_same]
    · simp [getBounty, updateMap_same]
  · intro v1 v2 s1 evs1 s2 evs2 hv1 hv2 hfresh hok1 hok2
    rw [sponsorBounty_ok_iff] at hok1 hok2
    obtain ⟨-, rfl, -⟩ := hok1
    obtain ⟨-, rfl, -⟩ := hok2
    constructor
    · simp [getBounty, updateMap_same, hfresh, defaultBounty]
    · simp [getBounty, updateMap_same, hfresh, defaultBounty]

/-- Witness for C3: sponsoring bounty a twice with 10 then 25 wei from sponsor
7 leaves a pool of 35 and the sponsor listed twice. -/
theorem sponsorBounty_effects_witness :
    sponsorBounty (initialState 1) 7 ("a") 0 = .error .ZeroSponsorship ∧
    (∃ s' evs, sponsorBounty (initialState 1) 7 ("a") 10 = .ok (s', evs) ∧
       (getBounty s' ("a")).prizePool = 0 + 10 ∧
       (getBounty s' ("a")).sponsors = [] ++ [7]) ∧
    (getBounty (run (initialState 1) [.sponsor 7 ("a") 10, .sponsor 7 ("a") 25]) ("a")).prizePool = 35 ∧
    (getBounty (run (initialState 1) [.sponsor 7 ("a") 10, .sponsor 7 ("a") 25]) ("a")).sponsors = [7, 7] := by
  have h := sponsorBounty_effects (initialState 1) 7 ("a")
  have h2 := h.2.2 10 25 _ _ _ _ (by decide) (by decide) rfl rfl rfl
  exact ⟨h.1, by simpa using h.2.1 10 (by decide), h2.1, h2.2⟩

/-- Claim C4: bribeHacker with zero value always fails with ZeroBribe; with
positive value it appends exactly one record with the given amount, the caller
as briber and the given target as hacker, for every target address and bounty
id string, with no requirement that the target ever committed or that the id
names an existing bounty (the state s is arbitrary). -/
theorem bribeHacker_effects (s : BribehackState) (sender hacker : Address)
    (id : String) (ts : Nat) :
    (bribeHacker s sender hacker id 0 ts = .error .ZeroBribe) ∧
    (∀ v, v ≠ 0 → ∃ s' evs, bribeHacker s sender hacker id v ts = .ok (s', evs) ∧
       getBribes s' hacker = getBribes s hacker ++
         [{ briber := sender, hacker := hacker, bountyId := id,
            amount := v, timestamp := ts }] ∧
       (getBribes s' hacker).length = (getBribes s hacker).length + 1) := by
  refine ⟨by simp [bribeHacker], ?_⟩
  intro v hv
  refine ⟨_, _, (bribeHacker_ok_iff s sender hacker id v ts _ _).2 ⟨hv, rfl, rfl⟩, ?_, ?_⟩
  · simp [getBribes, updateMap_same]
  · simp [getBribes, updateMap_same]

/-- Witness for C4: briber 9 bribes hacker 4 with 13 wei for a bounty id that
names no bounty while hacker 4 never committed; exactly one record with those
fields is appended. -/
theorem bribeHacker_effects_witness :
    bribeHacker (initialState 1) 9 4 ("c") 0 11 = .error .ZeroBribe ∧
    (∃ s' evs, bribeHacker (initialState 1) 9 4 ("c") 13 11 = .ok (s', evs) ∧
       getBribes s' 4 = [{ briber := 9, hacker := 4, bountyId := ("c"),
                           amount := 13, timestamp := 11 }]) := by
  have h := bribeHacker_effects (initialState 1) 9 4 ("c") 11
  obtain ⟨s', evs, hok, happ, -⟩ := h.2 13 (by decide)
  exact ⟨h.1, ⟨s', evs, hok, by simpa using happ⟩⟩

/-- Claim C7: a successful bribeHacker call changes no Bounty record and no
Commitment record: every bounty key reads exactly as before (in particular a
never sponsored key still reads the zero struct), and every hacker keeps its
stored commitment and commitment count. -/
theorem bribeHacker_frame (s : BribehackState) (sender hacker : Address)
    (id : String) (v ts : Nat) (s' : BribehackState) (evs : List ContractEvent)
    (hok : bribeHacker s sender hacker id v ts = .ok (s', evs)) :
    (∀ b, getBounty s' b = getBounty s b) ∧
    (∀ h, getCommitment s' h = getCommitment s h) ∧
    (∀ h, s'.hackerCommitmentCount h = s.hackerCommitmentCount h) := by
  rw [bribeHacker_ok_iff] at hok
  obtain ⟨-, rfl, -⟩ := hok
  exact ⟨fun b => rfl, fun h => rfl, fun h => rfl⟩

/-- Claim C5: in every state reachable by any sequence of public calls from the
initial state, every hacker has hackerCommitmentCount at most 3 and equal to
the number of bounty ids of the currently stored Commitment; both are zero for
a hacker never named as sender of a commit call. -/
theorem hackerCommitmentCount_invariant (lz : Address) (ops : List Op) (h : Address) :
    (run (initialState lz) ops).hackerCommitmentCount h ≤ 3 ∧
    (run (initialState lz) ops).hackerCommitmentCount h =
      ((getCommitment (run (initialState lz) ops) h).bountyIds).length ∧
    (h ∉ committedHackers ops →
      (run (initialState lz) ops).hackerCommitmentCount h = 0 ∧
      (getCommitment (run (initialState lz) ops) h).bountyIds = []) := by
  have hinv := countInv_run (initialState lz) ops (countInv_initial lz) h
  refine ⟨by simpa [MAX_COMMITMENTS] using hinv.2, hinv.1, ?_⟩
  intro hh
  have hfr := run_commitments_frame (initialState lz) ops h hh
  constructor
  · exact hfr.2.trans rfl
  · show ((run (initialState lz) ops).commitments h).bountyIds = []
    rw [hfr.1]
    rfl

/-- Witness for C5 at a concrete trace: after hacker 5 commits to two ids and
unrelated sponsor and bribe calls happen, the count of 5 is at most 3 and
equals the stored list length, and the untouched hacker 6 still reads zero. -/
theorem hackerCommitmentCount_invariant_witness :
    (run (initialState 1) [.commit 5 [("a"), ("b")] ("") ("") 0, .sponsor 7 ("a") 10,
        .bribe 9 5 ("c") 13 0]).hackerCommitmentCount 5 ≤ 3 ∧
    (run (initialState 1) [.commit 5 [("a"), ("b")] ("") ("") 0, .sponsor 7 ("a") 10,
        .bribe 9 5 ("c") 13 0]).hackerCommitmentCount 5 =
      ((getCommitment (run (initialState 1) [.commit 5 [("a"), ("b")] ("") ("") 0,
        .sponsor 7 ("a") 10, .bribe 9 5 ("c") 13 0]) 5).bountyIds).length ∧
    (run (initialState 1) [.commit 5 [("a"), ("b")] ("") ("") 0, .sponsor 7 ("a") 10,
        .bribe 9 5 ("c") 13 0]).hackerCommitmentCount 6 = 0 := by
  have h5 := hackerCommitmentCount_invariant 1
    [.commit 5 [("a"), ("b")] ("") ("") 0, .sponsor 7 ("a") 10, .bribe 9 5 ("c") 13 0] 5
  have h6 := hackerCommitmentCount_invariant 1
    [.commit 5 [("a"), ("b")] ("") ("") 0, .sponsor 7 ("a") 10, .bribe 9 5 ("c") 13 0] 6
  exact ⟨h5.1, h5.2.1, (h6.2.2 (by decide)).1⟩

/-- Claim C6: sponsorBounty writes the stored bountyId field exactly when the
prize pool was zero immediately before the call; in every reachable state a
bounty with positive pool stores its own key as bountyId, and a key never named
in a sponsor call still stores the empty string. -/
theorem sponsorBounty_bountyId_write_iff :
    (∀ (s : BribehackState) (sender : Address) (id : String) (v : Nat)
        (s' : BribehackState) (evs : List ContractEvent),
       sponsorBounty s sender id v = .ok (s', evs) →
       (getBounty s' id).bountyId =
         (if (getBounty s id).prizePool = 0 then id else (getBounty s id).bountyId)) ∧
    (∀ (lz : Address) (ops : List Op) (k : String),
       0 < (getBounty (run (initialState lz) ops) k).prizePool →
       (getBounty (run (initialState lz) ops) k).bountyId = k) ∧
    (∀ (lz : Address) (ops : List Op) (k : String),
       k ∉ sponsoredBountyIds ops →
       (getBounty (run (initialState lz) ops) k).bountyId = "") := by
  refine ⟨?_, ?_, ?_⟩
  · intro s sender id v s' evs hok
    rw [sponsorBounty_ok_iff] at hok
    obtain ⟨-, rfl, -⟩ := hok
    simp [getBounty, updateMap_same]
  · intro lz ops k hpos
    exact ((bountyInv_run _ ops (bountyInv_initial lz)) k).1 hpos
  · intro lz ops k hk
    have hfr := run_bounties_frame (initialState lz) ops k hk
    show ((run (initialState lz) ops).bounties k).bountyId = ""
    rw [hfr]
    rfl

/-- Witness for C6: the first sponsorship of bounty a writes the id field, the
reachable state with a positive pool stores its own key, and the never
sponsored key b still stores the empty string. -/
theorem sponsorBounty_bountyId_write_iff_witness :
    (∃ s' evs, sponsorBounty (initialState 1) 7 ("a") 10 = .ok (s', evs) ∧
       (getBounty s' ("a")).bountyId = ("a")) ∧
    (getBounty (run (initialState 1) [.sponsor 7 ("a") 10]) ("a")).bountyId = ("a") ∧
    (getBounty (run (initialState 1) [.sponsor 7 ("a") 10]) ("b")).bountyId = ("") := by
  refine ⟨⟨_, _, rfl, ?_⟩, ?_, ?_⟩
  · have h := sponsorBounty_bountyId_write_iff.1 (initialState 1) 7 ("a") 10 _ _ rfl
    simpa [getBounty, initialState, defaultBounty] using h
  · exact sponsorBounty_bountyId_write_iff.2.1 1 [.sponsor 7 ("a") 10] ("a") (by decide)
  · exact sponsorBounty_bountyId_write_iff.2.2 1 [.sponsor 7 ("a") 10] ("b") (by decide)

/-- Counterexample to C8 as stated: a public operation can decrease
hackerCommitmentCount.  Hacker 5 commits to two ids (count 2) and then
successfully recommits to one id (2 + 1 = 3 does not exceed the throttle):
the stored count drops from 2 to 1 and the commitment is replaced. -/
theorem hackerCommitmentCount_decrease :
    (run (initialState 1) [.commit 5 [("a"), ("b")] ("") ("") 0]).hackerCommitmentCount 5 = 2 ∧
    (run (initialState 1) [.commit 5 [("a"), ("b")] ("") ("") 0,
        .commit 5 [("c")] ("") ("") 0]).hackerCommitmentCount 5 = 1 ∧
    ((run (initialState 1) [.commit 5 [("a"), ("b")] ("") ("") 0,
        .commit 5 [("c")] ("") ("") 0]).commitments 5).bountyIds = [("c")] ∧
    (1 : Nat) < 2 := by
  exact ⟨by decide, by decide, by decide, by decide⟩

/-- Claim C8 (amended): once the stored count of a hacker reaches 3, every
subsequent commitToBounties call from that hacker reverts whatever its
arguments, and no sequence of public operations ever changes that count or
that stored commitment again, because no operation decreases the count from 3
(counts below 3 can decrease, see hackerCommitmentCount_decrease). -/
theorem commit_count_three_locks (s : BribehackState) (h : Address)
    (h3 : s.hackerCommitmentCount h = 3) :
    (∀ ids ens ipfs ts, ∃ e, commitToBounties s h ids ens ipfs ts = .error e) ∧
    (∀ ops, (run s ops).hackerCommitmentCount h = 3 ∧
            (run s ops).commitments h = s.commitments h) := by
  constructor
  · intro ids ens ipfs ts
    rcases Nat.eq_zero_or_pos ids.length with hlen | hlen
    · have hnil : ids = [] := List.length_eq_zero.mp hlen
      subst hnil
      exact ⟨_, commitToBounties_error_of_nil s h ens ipfs ts⟩
    · exact ⟨_, commitToBounties_error_of_overflow s h ids ens ipfs ts (by omega)
        (by simp only [MAX_COMMITMENTS]; omega)⟩
  · intro ops
    exact count_three_preserved s h ops h3

/-- Witness for C8: after hacker 5 commits to three ids, a further one id
commit reverts, and a trace with another commit attempt and an unrelated
sponsorship leaves count and commitment unchanged. -/
theorem commit_count_three_locks_witness :
    (∃ e, commitToBounties (run (initialState 1) [.commit 5 [("a"), ("b"), ("c")] ("") ("") 0]) 5
        [("d")] ("") ("") 0 = .error e) ∧
    (run (run (initialState 1) [.commit 5 [("a"), ("b"), ("c")] ("") ("") 0])
        [.commit 5 [("d")] ("") ("") 0, .sponsor 7 ("a") 10]).hackerCommitmentCount 5 = 3 := by
  have h := commit_count_three_locks
    (run (initialState 1) [.commit 5 [("a"), ("b"), ("c")] ("") ("") 0]) 5 (by decide)
  exact ⟨h.1 [("d")] ("") ("") 0, (h.2 [.commit 5 [("d")] ("") ("") 0, .sponsor 7 ("a") 10]).1⟩

/-- Claim C9: the three accessors are pure total reads: on any reachable state
they are plain functions of storage defined for every key (so they cannot
revert and modify nothing), and every key never touched by any call of the
trace reads the zero valued struct or the empty list. -/
theorem getters_total_default (lz : Address) (ops : List Op) (h : Address) (k : String) :
    getCommitment (run (initialState lz) ops) h = (run (initialState lz) ops).commitments h ∧
    getBounty (run (initialState lz) ops) k = (run (initialState lz) ops).bounties k ∧
    getBribes (run (initialState lz) ops) h = (run (initialState lz) ops).bribesByHacker h ∧
    (h ∉ committedHackers ops →
      getCommitment (run (initialState lz) ops) h = defaultCommitment) ∧
    (k ∉ sponsoredBountyIds ops →
      getBounty (run (initialState lz) ops) k = defaultBounty) ∧
    (h ∉ bribedHackers ops →
      getBribes (run (initialState lz) ops) h = []) := by
  refine ⟨rfl, rfl, rfl, ?_, ?_, ?_⟩
  · intro hh
    exact ((run_commitments_frame (initialState lz) ops h hh).1).trans rfl
  · intro hk
    exact (run_bounties_frame (initialState lz) ops k hk).trans rfl
  · intro hh
    exact (run_bribes_frame (initialState lz) ops h hh).trans rfl

/-- Witness for C9: on a trace with one commit, one sponsorship and one bribe,
the untouched hacker 6 and the untouched key zzz read the defaults. -/
theorem getters_total_default_witness :
    getCommitment (run (initialState 1) [.commit 5 [("a")] ("") ("") 0, .sponsor 7 ("a") 10,
        .bribe 9 4 ("c") 13 0]) 6 = defaultCommitment ∧
    getBounty (run (initialState 1) [.commit 5 [("a")] ("") ("") 0, .sponsor 7 ("a") 10,
        .bribe 9 4 ("c") 13 0]) ("zzz") = defaultBounty ∧
    getBribes (run (initialState 1) [.commit 5 [("a")] ("") ("") 0, .sponsor 7 ("a") 10,
        .bribe 9 4 ("c") 13 0]) 6 = [] := by
  have h := getters_total_default 1
    [.commit 5 [("a")] ("") ("") 0, .sponsor 7 ("a") 10, .bribe 9 4 ("c") 13 0] 6 ("zzz")
  exact ⟨h.2.2.2.1 (by decide), h.2.2.2.2.1 (by decide), h.2.2.2.2.2 (by decide)⟩

/-- Witness for C7: after bribing hacker 4 about the never sponsored bounty c,
getBounty of c still reads the zero struct with zero pool and empty sponsors. -/
theorem bribeHacker_frame_witness :
    ∃ s' evs, bribeHacker (initialState 1) 9 4 ("c") 13 11 = .ok (s', evs) ∧
      getBounty s' ("c") = defaultBounty ∧
      (getBounty s' ("c")).prizePool = 0 ∧
      (getBounty s' ("c")).sponsors = [] ∧
      getCommitment s' 4 = defaultCommitment := by
  have h := bribeHacker_frame (initialState 1) 9 4 ("c") 13 11 _ _ rfl
  refine ⟨_, _, rfl, ?_, ?_, ?_, ?_⟩
  · exact (h.1 ("c")).trans rfl
  · exact congrArg Bounty.prizePool ((h.1 ("c")).trans rfl)
  · exact congrArg Bounty.sponsors ((h.1 ("c")).trans rfl)
  · exact (h.2.1 4).trans rfl

end Bribehack

namespace BribehackSubgraph

open Bribehack (updateMap updateMap_same updateMap_ne)

/-- Store well-formedness for bounty entities: every stored bounty carries its
own key as id (the mapping always saves an entity under its id). -/
def bountyKeysWF (st : Store) : Prop :=
  ∀ k b, st.bountyEntities k = some b → b.id = k

theorem bountyKeysWF_empty : bountyKeysWF emptyStore := by
  intro k b h
  simp [emptyStore] at h

theorem normalizeENS_eq_lower (s : String) : normalizeENS s = lowerString s := by
  by_cases h : s = ""
  · subst h
    decide
  · simp [normalizeENS, h]

/-- On a well formed store, getOrCreateBounty always yields the lower cased
bounty id as entity key. -/
theorem getOrCreateBounty_id (st : Store) (bountyId : String) (hwf : bountyKeysWF st) :
    (getOrCreateBounty st bountyId).id = lowerString bountyId := by
  simp only [getOrCreateBounty]
  split
  · rename_i b heq
    exact hwf _ _ heq
  · rfl

theorem getOrCreateHacker_commitments (address : Bytes) (st : Store) :
    ((getOrCreateHacker address st).2).commitmentEntities = st.commitmentEntities := by
  simp only [getOrCreateHacker]
  split
  · rfl
  · rfl

theorem getOrCreateHacker_bribes (address : Bytes) (st : Store) :
    ((getOrCreateHacker address st).2).bribeEntities = st.bribeEntities := by
  simp only [getOrCreateHacker]
  split
  · rfl
  · rfl

theorem bountyLoop_commitments_frame (cid : String) (ts : Nat) (l : List String) (st : Store) :
    (l.foldl (addCommitmentToBounty cid ts) st).commitmentEntities = st.commitmentEntities := by
  induction l generalizing st with
  | nil => rfl
  | cons x xs ih =>
      simp only [List.foldl_cons]
      rw [ih]
      rfl

/-- The NewCommitment handler stores the commitment entity under the
transaction hash and log index pair, with the ENS pseudonym lower cased. -/
theorem handleNewCommitment_commitment (ev : IndexedEvent NewCommitmentEventParams) (st : Store) :
    (handleNewCommitment ev st).commitmentEntities (mkEntityId ev.txHash ev.logIndex) =
      some ({ id := mkEntityId ev.txHash ev.logIndex, hacker := ev.params.hacker,
              bountyIds := ev.params.bountyIds,
              ensPseudonym := lowerString ev.params.ensPseudonym,
              ipfsHash := ev.params.ipfsHash,
              timestamp := getValidTimestamp ev.params.timestamp ev.blockTimestamp,
              transactionHash := ev.txHash, blockNumber := ev.blockNumber }) := by
  simp only [handleNewCommitment, normalizeENS_eq_lower]
  rw [bountyLoop_commitments_frame]
  rw [getOrCreateHacker_commitments]
  exact updateMap_same _ _ _

/-- The BountySponsored handler stores the sponsor entity under the transaction
hash and log index pair, with its bounty relation the lower cased bounty id. -/
theorem handleBountySponsored_sponsor (ev : IndexedEvent BountySponsoredEventParams)
    (st : Store) (hwf : bountyKeysWF st) :
    (handleBountySponsored ev st).sponsorEntities (mkEntityId ev.txHash ev.logIndex) =
      some ({ id := mkEntityId ev.txHash ev.logIndex, sponsor := ev.params.sponsor,
              bounty := lowerString ev.params.bountyId, amount := ev.params.amount,
              timestamp := ev.blockTimestamp, transactionHash := ev.txHash }) := by
  simp only [handleBountySponsored]
  rw [getOrCreateBounty_id st ev.params.bountyId hwf]
  exact updateMap_same _ _ _

/-- The BountySponsored handler saves its bounty entity under the lower cased
bounty id. -/
theorem handleBountySponsored_bounty_key (ev : IndexedEvent BountySponsoredEventParams)
    (st : Store) (hwf : bountyKeysWF st) :
    (handleBountySponsored ev st).bountyEntities (lowerString ev.params.bountyId) =
      some ({ getOrCreateBounty st ev.params.bountyId with
               prizePool := ev.params.newTotal,
               totalSponsors := (getOrCreateBounty st ev.params.bountyId).totalSponsors + 1,
               lastUpdated := ev.blockTimestamp }) := by
  simp only [handleBountySponsored]
  rw [getOrCreateBounty_id st ev.params.bountyId hwf]
  exact updateMap_same _ _ _

/-- The HackerBribed handler stores the bribe entity under the transaction hash
and log index pair, with its bounty relation the lower cased bounty id and the
original id kept in the bountyId field. -/
theorem handleHackerBribed_bribe (ev : IndexedEvent HackerBribedEventParams)
    (st : Store) (hwf : bountyKeysWF st) :
    (handleHackerBribed ev st).bribeEntities (mkEntityId ev.txHash ev.logIndex) =
      some ({ id := mkEntityId ev.txHash ev.logIndex, briber := ev.params.briber,
              hacker := ev.params.hacker, bounty := lowerString ev.params.bountyId,
              bountyId := ev.params.bountyId, amount := ev.params.amount,
              timestamp := getValidTimestamp ev.params.timestamp ev.blockTimestamp,
              transactionHash := ev.txHash, blockNumber := ev.blockNumber,
              status := "pending" }) := by
  simp only [handleHackerBribed]
  rw [getOrCreateBounty_id st ev.params.bountyId hwf]
  rw [getOrCreateHacker_bribes]
  exact updateMap_same _ _ _

end BribehackSubgraph

namespace BribehackSubgraph

/-- Counterexample to claim C10 as stated: the mapping handles only three of
the five ledger events (CrossChainSnapshot and LZMessageSent have no handler),
and it reads event parameters the ledger events do not carry (timestamp on
NewCommitment and HackerBribed, newTotal on BountySponsored, ensPseudonym on
NewCommitment). -/
theorem indexer_five_events_counterexample :
    EventKind.crossChainSnapshot ∈ ledgerEventKinds ∧
    EventKind.crossChainSnapshot ∉ indexerHandledKinds ∧
    EventKind.lzMessageSent ∈ ledgerEventKinds ∧
    EventKind.lzMessageSent ∉ indexerHandledKinds ∧
    indexerHandledKinds.length = 3 ∧
    ledgerEventKinds.length = 5 ∧
    ("timestamp") ∈ indexerParamsRead EventKind.newCommitment ∧
    ("timestamp") ∉ ledgerEventParams EventKind.newCommitment ∧
    ("ensPseudonym") ∈ indexerParamsRead EventKind.newCommitment ∧
    ("ensPseudonym") ∉ ledgerEventParams EventKind.newCommitment ∧
    ("newTotal") ∈ indexerParamsRead EventKind.bountySponsored ∧
    ("newTotal") ∉ ledgerEventParams EventKind.bountySponsored ∧
    ("timestamp") ∈ indexerParamsRead EventKind.hackerBribed ∧
    ("timestamp") ∉ ledgerEventParams EventKind.hackerBribed := by
  decide

/-- Claim C10 (amended): the indexer consumes exactly three of the five ledger
events (NewCommitment, BountySponsored, HackerBribed; CrossChainSnapshot and
LZMessageSent have no handler), and beside the carried fields it reads
parameters the ledger events do not carry (ensPseudonym and timestamp on
NewCommitment, newTotal on BountySponsored, timestamp on HackerBribed);
it derives Commitment, Sponsor and Bribe entity ids as the transaction hash
and log index pair, lower-cases bounty ids for its own Bounty entity key, and
lower-cases ENS pseudonyms. -/
theorem indexer_event_consumption (ev1 : IndexedEvent NewCommitmentEventParams)
    (ev2 : IndexedEvent BountySponsoredEventParams)
    (ev3 : IndexedEvent HackerBribedEventParams) (st1 st2 st3 : Store) (s : String)
    (hwf2 : bountyKeysWF st2) (hwf3 : bountyKeysWF st3) :
    (indexerHandledKinds = [.newCommitment, .bountySponsored, .hackerBribed] ∧
     indexerHandledKinds.all (fun k => ledgerEventKinds.contains k) = true ∧
     EventKind.crossChainSnapshot ∉ indexerHandledKinds ∧
     EventKind.lzMessageSent ∉ indexerHandledKinds) ∧
    ((indexerParamsRead EventKind.newCommitment).filter
        (fun f => !((ledgerEventParams EventKind.newCommitment).contains f)) =
       [("ensPseudonym"), ("timestamp")] ∧
     (indexerParamsRead EventKind.bountySponsored).filter
        (fun f => !((ledgerEventParams EventKind.bountySponsored).contains f)) =
       [("newTotal")] ∧
     (indexerParamsRead EventKind.hackerBribed).filter
        (fun f => !((ledgerEventParams EventKind.hackerBribed).contains f)) =
       [("timestamp")]) ∧
    (handleNewCommitment ev1 st1).commitmentEntities (mkEntityId ev1.txHash ev1.logIndex) =
      some ({ id := mkEntityId ev1.txHash ev1.logIndex, hacker := ev1.params.hacker,
              bountyIds := ev1.params.bountyIds,
              ensPseudonym := lowerString ev1.params.ensPseudonym,
              ipfsHash := ev1.params.ipfsHash,
              timestamp := getValidTimestamp ev1.params.timestamp ev1.blockTimestamp,
              transactionHash := ev1.txHash, blockNumber := ev1.blockNumber }) ∧
    (handleBountySponsored ev2 st2).sponsorEntities (mkEntityId ev2.txHash ev2.logIndex) =
      some ({ id := mkEntityId ev2.txHash ev2.logIndex, sponsor := ev2.params.sponsor,
              bounty := lowerString ev2.params.bountyId, amount := ev2.params.amount,
              timestamp := ev2.blockTimestamp, transactionHash := ev2.txHash }) ∧
    (∃ b, (handleBountySponsored ev2 st2).bountyEntities (lowerString ev2.params.bountyId) =
      some b) ∧
    (handleHackerBribed ev3 st3).bribeEntities (mkEntityId ev3.txHash ev3.logIndex) =
      some ({ id := mkEntityId ev3.txHash ev3.logIndex, briber := ev3.params.briber,
              hacker := ev3.params.hacker, bounty := lowerString ev3.params.bountyId,
              bountyId := ev3.params.bountyId, amount := ev3.params.amount,
              timestamp := getValidTimestamp ev3.params.timestamp ev3.blockTimestamp,
              transactionHash := ev3.txHash, blockNumber := ev3.blockNumber,
              status := "pending" }) ∧
    normalizeENS s = lowerString s := by
  refine ⟨⟨rfl, by decide, by decide, by decide⟩, ⟨by decide, by decide, by decide⟩,
    handleNewCommitment_commitment ev1 st1, handleBountySponsored_sponsor ev2 st2 hwf2,
    ⟨_, handleBountySponsored_bounty_key ev2 st2 hwf2⟩,
    handleHackerBribed_bribe ev3 st3 hwf3, normalizeENS_eq_lower s⟩

/-- Witness for C10 at concrete events on the empty store: the commitment of
transaction 0xt at log index 1 lands under key 0xt-1 with the ENS pseudonym
lower cased, the sponsor entity of transaction 0xu at log index 2 lands under
key 0xu-2 pointing at the lower cased bounty key, and the concrete evaluations
of the derived keys and the lower casing are checked. -/
theorem indexer_event_consumption_witness :
    (handleNewCommitment
        ({ params := { hacker := ("0xAB"), bountyIds := [("LayerZero-Bug")],
                       ensPseudonym := ("Crypto.Punk"), ipfsHash := ("Qm"), timestamp := 0 },
           txHash := ("0xt"), logIndex := 1, blockNumber := 5, blockTimestamp := 99 })
        emptyStore).commitmentEntities (mkEntityId ("0xt") 1) =
      some ({ id := mkEntityId ("0xt") 1, hacker := ("0xAB"),
              bountyIds := [("LayerZero-Bug")],
              ensPseudonym := lowerString ("Crypto.Punk"), ipfsHash := ("Qm"),
              timestamp := getValidTimestamp 0 99,
              transactionHash := ("0xt"), blockNumber := 5 }) ∧
    (handleBountySponsored
        ({ params := { bountyId := ("BigBounty"), sponsor := ("0xS"), amount := 10,
                       newTotal := 10 },
           txHash := ("0xu"), logIndex := 2, blockNumber := 6, blockTimestamp := 100 })
        emptyStore).sponsorEntities (mkEntityId ("0xu") 2) =
      some ({ id := mkEntityId ("0xu") 2, sponsor := ("0xS"),
              bounty := lowerString ("BigBounty"), amount := 10,
              timestamp := 100, transactionHash := ("0xu") }) ∧
    mkEntityId ("0xt") 1 = ("0xt-1") ∧
    mkEntityId ("0xu") 2 = ("0xu-2") ∧
    lowerString ("Crypto.Punk") = ("crypto.punk") ∧
    lowerString ("BigBounty") = ("bigbounty") ∧
    getValidTimestamp 0 99 = 99 := by
  have h := indexer_event_consumption
    ({ params := { hacker := ("0xAB"), bountyIds := [("LayerZero-Bug")],
                   ensPseudonym := ("Crypto.Punk"), ipfsHash := ("Qm"), timestamp := 0 },
       txHash := ("0xt"), logIndex := 1, blockNumber := 5, blockTimestamp := 99 })
    ({ params := { bountyId := ("BigBounty"), sponsor := ("0xS"), amount := 10,
                   newTotal := 10 },
       txHash := ("0xu"), logIndex := 2, blockNumber := 6, blockTimestamp := 100 })
    ({ params := { briber := ("0xB"), hacker := ("0xH"), bountyId := ("c"), amount := 1,
                   timestamp := 0 },
       txHash := ("0xv"), logIndex := 3, blockNumber := 7, blockTimestamp := 101 })
    emptyStore emptyStore emptyStore ("X") bountyKeysWF_empty bountyKeysWF_empty
  exact ⟨h.2.2.1, h.2.2.2.1, by decide, by decide, by decide, by decide, by decide⟩

end BribehackSubgraph
